import Mathlib

/-
Shallow embedding of the multi-agent worker (src/python/main.py,
src/python/crewai_engine.py, src/python/ipc_handler.py).

Python defines several CrewAIEngine methods twice; the second definition of
each name is the effective one (it shadows the first).  The embedding below
translates the effective definitions; where a claim's sources also name the
shadowed first definition, that is modelled separately and said so.

Modelling conventions:
- Python dict values are the inductive PyVal; Python None is PyVal.pnone.
- Python floats are rationals (the program only manipulates them exactly).
- params dicts are association lists; the engine only ever reads string or
  absent values for the keys it uses, so readers return Option String.
- Notifications are Event values; a translated function returns the list of
  events its body emits, in order.  A body with no ipc_callback call
  returns [].
- Wall-clock readings (time.time, loop.time, datetime.now) are a rational
  argument named now; ISO formatting of a timestamp is abstracted to the
  raw clock value.
-/

namespace MultiAgent

/-- A Python/JSON value as handled by json.dumps and dict access. -/
inductive PyVal where
  | pnone
  | pbool (b : Bool)
  | pstr (s : String)
  | pnum (q : ℚ)
  | plist (xs : List PyVal)
  | pdict (kvs : List (String × PyVal))

/-- An association-list dict, as built by the Python dict literals. -/
abbrev PyDict := List (String × PyVal)

/-- dict.get(k): the value under k, or None when the key is absent. -/
def dictGet (d : PyDict) (k : String) : PyVal :=
  match d with
  | [] => .pnone
  | (k', v) :: rest => if k' = k then v else dictGet rest k

/-- dict.get(k, dflt) with a PyVal default. -/
def dictGetD (d : PyDict) (k : String) (dflt : PyVal) : PyVal :=
  match d with
  | [] => dflt
  | (k', v) :: rest => if k' = k then v else dictGetD rest k dflt

/-- Whether the key k is present in the dict. -/
def hasKey (d : PyDict) (k : String) : Bool :=
  match d with
  | [] => false
  | (k', _) :: rest => if k' = k then true else hasKey rest k

/-- d[k] = v on a Python dict: overwrite in place, else append. -/
def setKey (d : PyDict) (k : String) (v : PyVal) : PyDict :=
  match d with
  | [] => [(k, v)]
  | (k', v') :: rest => if k' = k then (k, v) :: rest else (k', v') :: setKey rest k v

/-- Python truthiness of a value, as used in if result.get("success"). -/
def pyTruthy : PyVal → Bool
  | .pnone => false
  | .pbool b => b
  | .pstr s => s ≠ ""
  | .pnum q => q ≠ 0
  | .plist xs => !xs.isEmpty
  | .pdict kvs => !kvs.isEmpty

/-- f-string rendering of an optional string, as in f"Task {task_id}". -/
def pyStr : Option String → String
  | Option.none => "None"
  | some s => s

/-- An optional string as a PyVal (None or a string). -/
def pyOptStr : Option String → PyVal
  | Option.none => .pnone
  | some s => .pstr s

/-- params.get(k) read as an id/description: a string or absent.
The program only ever stores strings (or nothing) under these keys. -/
def pGetStr (params : PyDict) (k : String) : Option String :=
  match dictGet params k with
  | .pstr s => some s
  | _ => Option.none

/-- params.get(k, dflt) for a string-valued key. -/
def pGetStrD (params : PyDict) (k : String) (dflt : String) : String :=
  (pGetStr params k).getD dflt

/-- Python truthiness of an optional string (None and "" are falsy). -/
def pyTruthyStr : Option String → Bool
  | Option.none => false
  | some s => s ≠ ""

/-- A notification pushed through ipc_callback / send_notification. -/
inductive Event where
  | progress (taskId : String) (fraction : ℚ) (status : String) (message : String)
  | completed (taskId : String)
  | failed (taskId : String) (error : String)
  | status_update
deriving DecidableEq

/-- The TaskProgress pydantic model of crewai_engine.py. -/
structure TaskProgress where
  task_id : String
  progress : ℚ
  status : String
  current_agent : Option String
  current_action : Option String
  message : Option String
  created_at : ℚ
  updated_at : ℚ
deriving DecidableEq

/-- A value stored in CrewAIEngine.active_tasks: the effective start_task
stores a plain dict, the shadowed first start_task stores a TaskProgress. -/
inductive TaskVal where
  | tdict (d : PyDict)
  | tprog (p : TaskProgress)

/-- CrewAIEngine.active_tasks: a dict keyed by the task_id taken straight
from params.get("task_id"), which is None when the key is absent. -/
abbrev EngineState := List (Option String × TaskVal)

/-- Lookup in active_tasks. -/
def eLookup (s : EngineState) (k : Option String) : Option TaskVal :=
  match s with
  | [] => Option.none
  | (k', v) :: rest => if k' = k then some v else eLookup rest k

/-- active_tasks[k] = v: overwrite in place, else append (insertion order). -/
def eInsert (s : EngineState) (k : Option String) (v : TaskVal) : EngineState :=
  match s with
  | [] => [(k, v)]
  | (k', v') :: rest => if k' = k then (k, v) :: rest else (k', v') :: eInsert rest k v

/-- The "status" entry of the task stored under k, when it is a dict task. -/
def eStatus (s : EngineState) (k : Option String) : Option String :=
  match eLookup s k with
  | some (.tdict d) =>
      match dictGet d "status" with
      | .pstr st => some st
      | _ => Option.none
  | _ => Option.none

/-- The "description" entry of the dict task stored under k. -/
def eDescription (s : EngineState) (k : Option String) : Option String :=
  match eLookup s k with
  | some (.tdict d) =>
      match dictGet d "description" with
      | .pstr st => some st
      | _ => Option.none
  | _ => Option.none

/-- CrewAIEngine.start_task, second (effective) definition
(crewai_engine.py lines 576-603): reads task_id with no default and no
uuid generation, unconditionally overwrites the registry entry with a
plain dict of status "running", and returns success.  The body contains
no ipc_callback call, so it emits no events. -/
def start_task (s : EngineState) (params : PyDict) (now : ℚ) :
    EngineState × PyDict × List Event :=
  let task_id := pGetStr params "task_id"
  let task_description := pGetStrD params "description" ""
  let t : TaskVal := .tdict
    [("id", pyOptStr task_id),
     ("description", .pstr task_description),
     ("status", .pstr "running"),
     ("created_at", .pnum now)]
  (eInsert s task_id t,
   [("success", .pbool true),
    ("message", .pstr ("Task " ++ pyStr task_id ++ " started")),
    ("task_id", pyOptStr task_id)],
   [])

/-- CrewAIEngine.stop_task, second (effective) definition
(crewai_engine.py lines 605-629): if the id is present, performs the item
assignment active_tasks[task_id]["status"] = "stopped" — which succeeds on
a dict task and raises TypeError on a TaskProgress (pydantic models do not
support item assignment), the exception being caught and turned into an
error result.  Unknown ids get a not-found error.  No events are emitted. -/
def stop_task (s : EngineState) (params : PyDict) :
    EngineState × PyDict × List Event :=
  let task_id := pGetStr params "task_id"
  match eLookup s task_id with
  | some (.tdict d) =>
      (eInsert s task_id (.tdict (setKey d "status" (.pstr "stopped"))),
       [("success", .pbool true),
        ("message", .pstr ("Task " ++ pyStr task_id ++ " stopped"))],
       [])
  | some (.tprog _) =>
      (s,
       [("success", .pbool false),
        ("error", .pstr "TypeError: TaskProgress object does not support item assignment")],
       [])
  | Option.none =>
      (s,
       [("success", .pbool false),
        ("error", .pstr ("Task " ++ pyStr task_id ++ " not found"))],
       [])

/-- CrewAIEngine.get_task_status (crewai_engine.py lines 407-436): builds a
snapshot dict from the TaskProgress attributes; on a dict-valued task the
attribute access raises AttributeError, caught into an error result.  The
body never writes the registry and never calls ipc_callback. -/
def get_task_status (s : EngineState) (params : PyDict) :
    EngineState × PyDict × List Event :=
  let task_id := pGetStr params "task_id"
  match eLookup s task_id with
  | some (.tprog tp) =>
      (s,
       [("success", .pbool true),
        ("task_id", pyOptStr task_id),
        ("status", .pstr tp.status),
        ("progress", .pnum tp.progress),
        ("message", pyOptStr tp.message),
        ("current_agent", pyOptStr tp.current_agent),
        ("current_action", pyOptStr tp.current_action),
        ("created_at", .pnum tp.created_at),
        ("updated_at", .pnum tp.updated_at)],
       [])
  | some (.tdict _) =>
      (s,
       [("success", .pbool false),
        ("error", .pstr "AttributeError: dict object has no attribute status")],
       [])
  | Option.none =>
      (s,
       [("success", .pbool false),
        ("error", .pstr ("Task " ++ pyStr task_id ++ " not found"))],
       [])

/-- One entry of the list_tasks result, from a TaskProgress value. -/
def taskEntry (k : Option String) (tp : TaskProgress) : PyVal :=
  .pdict
    [("task_id", pyOptStr k),
     ("status", .pstr tp.status),
     ("progress", .pnum tp.progress),
     ("message", pyOptStr tp.message),
     ("current_agent", pyOptStr tp.current_agent),
     ("current_action", pyOptStr tp.current_action),
     ("created_at", .pnum tp.created_at),
     ("updated_at", .pnum tp.updated_at)]

/-- Whether every stored task is a TaskProgress (the loop in list_tasks
reads attributes, so a dict value raises AttributeError midway). -/
def allProg : EngineState → Bool
  | [] => true
  | (_, .tprog _) :: rest => allProg rest
  | (_, .tdict _) :: _ => false

/-- The accumulated entries when all values are TaskProgress. -/
def progEntries : EngineState → List PyVal
  | [] => []
  | (k, .tprog tp) :: rest => taskEntry k tp :: progEntries rest
  | (_, .tdict _) :: rest => progEntries rest

/-- CrewAIEngine.list_tasks (crewai_engine.py lines 438-464): iterates the
registry building snapshot dicts; an AttributeError on a dict-valued task
aborts the loop into the error branch.  Never writes the registry, never
calls ipc_callback. -/
def list_tasks (s : EngineState) (_params : PyDict) :
    EngineState × PyDict × List Event :=
  if allProg s then
    (s, [("success", .pbool true), ("tasks", .plist (progEntries s))], [])
  else
    (s,
     [("success", .pbool false),
      ("error", .pstr "AttributeError: dict object has no attribute status")],
     [])

/-- CrewAIEngine.handle_llm_request, second (effective) definition. -/
def handle_llm_request (s : EngineState) (params : PyDict) :
    EngineState × PyDict × List Event :=
  (s,
   [("success", .pbool true),
    ("message", .pstr "LLM request processed"),
    ("data", .pdict params)],
   [])

/-- CrewAIEngine.handle_tool_request, second (effective) definition. -/
def handle_tool_request (s : EngineState) (params : PyDict) :
    EngineState × PyDict × List Event :=
  let tool_name := pGetStr params "tool_name"
  let tool_params := dictGetD params "tool_params" (.pdict [])
  (s,
   [("success", .pbool true),
    ("message", .pstr ("Tool " ++ pyStr tool_name ++ " executed")),
    ("data", tool_params)],
   [])

/-- A parsed Request line: id, method and params may each be absent. -/
structure Request where
  id : Option String
  method : Option String
  params : PyDict

/-- The mutable state of CrewAIConnectMain: the running flag and the
engine's task registry. -/
structure MainState where
  running : Bool
  engine : EngineState

/-- CrewAIEngine.dispose (crewai_engine.py lines 519-533): stops every
task (observable only transiently) and then clears active_tasks. -/
def dispose (_s : EngineState) : EngineState := []

/-- The method dispatch of CrewAIConnectMain.handle_request
(main.py lines 91-116) plus the shutdown handler (lines 137-157):
returns the next state and the engine-level result dict.  health_check
builds its result inline; shutdown clears the running flag and disposes
the engine; an unrecognized (or absent) method falls to the error branch
with the f-string over the raw method value. -/
def mainDispatch (ms : MainState) (req : Request) (now : ℚ) :
    MainState × PyDict × List Event :=
  match req.method with
  | some "start_task" =>
      let (s', r, evs) := start_task ms.engine req.params now
      (⟨ms.running, s'⟩, r, evs)
  | some "stop_task" =>
      let (s', r, evs) := stop_task ms.engine req.params
      (⟨ms.running, s'⟩, r, evs)
  | some "get_task_status" =>
      let (s', r, evs) := get_task_status ms.engine req.params
      (⟨ms.running, s'⟩, r, evs)
  | some "list_tasks" =>
      let (s', r, evs) := list_tasks ms.engine req.params
      (⟨ms.running, s'⟩, r, evs)
  | some "llm_request" =>
      let (s', r, evs) := handle_llm_request ms.engine req.params
      (⟨ms.running, s'⟩, r, evs)
  | some "tool_request" =>
      let (s', r, evs) := handle_tool_request ms.engine req.params
      (⟨ms.running, s'⟩, r, evs)
  | some "health_check" =>
      (ms,
       [("success", .pbool true),
        ("status", .pstr "healthy"),
        ("timestamp", .pnum now)],
       [])
  | some "shutdown" =>
      (⟨false, dispose ms.engine⟩,
       [("success", .pbool true),
        ("message", .pstr "CrewAI Connect shutdown completed")],
       [])
  | m =>
      (ms,
       [("success", .pbool false),
        ("error", .pstr ("Unknown method: " ++ pyStr m))],
       [])

/-- CrewAIConnectMain.handle_request (main.py lines 82-135): dispatches,
then builds the Response dict literal with all four keys always present:
result is result.get("data") when result.get("success") is truthy (None
otherwise, also when the handler result has no "data" key), error is
result.get("error") when success is falsy (None otherwise). -/
def mainHandleRequest (ms : MainState) (req : Request) (now : ℚ) :
    MainState × PyDict × List Event :=
  let d := mainDispatch ms req now
  let result := d.2.1
  let ok := pyTruthy (dictGet result "success")
  (d.1,
   [("id", pyOptStr req.id),
    ("result", if ok then dictGet result "data" else .pnone),
    ("error", if ok then .pnone else dictGet result "error"),
    ("timestamp", .pnum now)],
   d.2.2)

/-- One line of standard input: unparseable JSON, only whitespace, or a
parsed request.  End-of-stream is the end of the input list. -/
inductive Line where
  | invalid
  | blank
  | valid (req : Request)

/-- IPCHandler.receive_request (ipc_handler.py lines 20-42): a blank line
returns None, a JSON decode error returns None, otherwise the parsed
request.  Note it also maps the end-of-stream empty read to None, which
the caller cannot tell apart from a blank line. -/
def recvLine : Line → Option Request
  | .invalid => Option.none
  | .blank => Option.none
  | .valid req => some req

/-- A value written to standard output: a Response line or a pushed
notification line. -/
inductive Out where
  | resp (r : PyDict)
  | notif (e : Event)

/-- CrewAIConnectMain.run (main.py lines 159-194), driven by a finite
input (EOF = end of list) under a fuel bound on loop iterations.
Returns the outputs written and whether the loop exited (running became
false) within the fuel.  A None from receive_request — a malformed line,
a blank line, or EOF — makes the loop sleep and retry; at EOF the input
stays empty, so the loop never exits. -/
def asyncRun (fuel : Nat) (input : List Line) (ms : MainState) :
    List Out × Bool :=
  match fuel with
  | 0 => ([], false)
  | fuel + 1 =>
    if ms.running then
      match input with
      | [] => asyncRun fuel [] ms
      | l :: rest =>
        match recvLine l with
        | Option.none => asyncRun fuel rest ms
        | some req =>
          let (ms', resp, evs) := mainHandleRequest ms req 0
          let (outs, finished) := asyncRun fuel rest ms'
          (evs.map Out.notif ++ Out.resp resp :: outs, finished)
    else ([], true)

/-- A task dict stored by SimpleIPCHandler.handle_start_task. -/
structure SimpleTask where
  id : String
  description : String
  status : String
  progress : ℚ
deriving DecidableEq

/-- The state of SimpleIPCHandler: its task dict and the running flag. -/
structure SimpleState where
  tasks : List (String × SimpleTask)
  is_running : Bool

/-- tasks[k] = v on the simple handler's dict. -/
def sInsert (ts : List (String × SimpleTask)) (k : String) (v : SimpleTask) :
    List (String × SimpleTask) :=
  match ts with
  | [] => [(k, v)]
  | (k', v') :: rest => if k' = k then (k, v) :: rest else (k', v') :: sInsert rest k v

/-- SimpleIPCHandler.send_response (main.py lines 236-253): the response
dict gets an "error" key when the error argument is truthy, otherwise a
"result" key — never both. -/
def send_response (request_id : PyVal) (result : PyVal) (error : Option String)
    (now : ℚ) : PyDict :=
  let base : PyDict := [("id", request_id), ("timestamp", .pnum now)]
  if pyTruthyStr error then base ++ [("error", .pstr (error.getD ""))]
  else base ++ [("result", result)]

/-- SimpleIPCHandler.handle_start_task (main.py lines 255-290): a falsy
task_id is rejected with "task_id is required"; otherwise the task is
stored, a progress-0 notification and a started response are written.
The notifications of the spawned simulate_task_execution thread are
modelled separately by simulateEvents. -/
def simpleStartTask (st : SimpleState) (request_id : PyVal) (params : PyDict)
    (now : ℚ) : List Out × SimpleState :=
  let task_id := pGetStr params "task_id"
  if pyTruthyStr task_id then
    let tid := task_id.getD ""
    let description := pGetStrD params "description" "No description"
    let task : SimpleTask := ⟨tid, description, "running", 0⟩
    ([Out.notif (.progress tid 0 "running" ("Started task: " ++ description)),
      Out.resp (send_response request_id
        (.pdict [("task_id", .pstr tid), ("status", .pstr "started")])
        Option.none now)],
     ⟨sInsert st.tasks tid task, st.is_running⟩)
  else
    ([Out.resp (send_response request_id .pnone (some "task_id is required") now)],
     st)

/-- The notifications that SimpleIPCHandler.simulate_task_execution
(main.py lines 292-340) emits for a task whose status stays "running"
throughout (no concurrent flip of the status field): progress 10..90 in
steps, then one task_completed. -/
def simulateEvents (tid : String) : List Event :=
  ((([10, 30, 50, 70, 90] : List ℚ)).map
    (fun p => Event.progress tid p "running"
      ("Task progress: " ++ toString (p.num) ++ "%")))
  ++ [Event.completed tid]

/-- All task_progress / task_completed notifications emitted for one
SimpleIPCHandler task that runs to completion undisturbed: the progress-0
notification of handle_start_task followed by the simulated trace. -/
def simpleTaskEvents (tid description : String) : List Event :=
  Event.progress tid 0 "running" ("Started task: " ++ description)
    :: simulateEvents tid

/-- SimpleIPCHandler.handle_request (main.py lines 350-376): a falsy id or
method means no response at all; then start_task / health_check /
shutdown are handled and anything else gets an unknown-method error. -/
def simpleHandle (st : SimpleState) (req : Request) (now : ℚ) :
    List Out × SimpleState :=
  if pyTruthyStr req.id && pyTruthyStr req.method then
    match req.method with
    | some "start_task" => simpleStartTask st (pyOptStr req.id) req.params now
    | some "health_check" =>
        ([Out.resp (send_response (pyOptStr req.id)
           (.pdict [("status", .pstr "healthy"),
                    ("timestamp", .pnum now),
                    ("tasks_count", .pnum st.tasks.length)])
           Option.none now)],
         st)
    | some "shutdown" =>
        ([Out.resp (send_response (pyOptStr req.id)
           (.pdict [("status", .pstr "shutting_down")]) Option.none now)],
         ⟨st.tasks, false⟩)
    | m =>
        ([Out.resp (send_response (pyOptStr req.id) .pnone
           (some ("Unknown method: " ++ pyStr m)) now)],
         st)
  else ([], st)

/-- SimpleIPCHandler.run (main.py lines 389-415): reads lines until EOF
(empty read breaks the loop) or until is_running is cleared; blank lines
and JSON decode errors are skipped with continue.  Unlike asyncRun this
loop terminates at end-of-input by construction. -/
def simpleRun (input : List Line) (st : SimpleState) : List Out × SimpleState :=
  match input with
  | [] => ([], st)
  | l :: rest =>
    if st.is_running then
      match l with
      | .blank => simpleRun rest st
      | .invalid => simpleRun rest st
      | .valid req =>
        let (outs, st') := simpleHandle st req 0
        let (outs2, st'') := simpleRun rest st'
        (outs ++ outs2, st'')
    else ([], st)

/-- The registry as populated by the shadowed first start_task, which is
the only caller that spawns _execute_crew_task: TaskProgress values keyed
by a string task id. -/
abbrev RegState := List (String × TaskProgress)

/-- Lookup in a TaskProgress registry. -/
def rLookup (s : RegState) (k : String) : Option TaskProgress :=
  match s with
  | [] => Option.none
  | (k', v) :: rest => if k' = k then some v else rLookup rest k

/-- The guarded in-place update "if task_id in self.active_tasks: ..."
used by _execute_crew_task: modifies the entry when present, otherwise
leaves the registry unchanged. -/
def rUpdate (s : RegState) (k : String) (f : TaskProgress → TaskProgress) :
    RegState :=
  match s with
  | [] => []
  | (k', v) :: rest =>
    if k' = k then (k', f v) :: rest else (k', v) :: rUpdate rest k f

/-- The status of the task stored under k. -/
def rStatus (s : RegState) (k : String) : Option String :=
  (rLookup s k).map TaskProgress.status

/-- The four fixed agent roles of create_development_crew
(crewai_engine.py lines 95-154), in pipeline order. -/
def crewRoles : List String :=
  ["Project Planner", "Software Developer",
   "Quality Assurance Tester", "Code Reviewer"]

/-- The four task descriptions of create_development_crew
(crewai_engine.py lines 166-188); only the first embeds the user's
description. -/
def taskDescs (description : String) : List String :=
  ["Analyze the following requirement and create a detailed development plan: "
     ++ description,
   "Implement the solution based on the planning task results",
   "Test the implemented solution for functionality and quality",
   "Review the implemented code for quality and best practices"]

/-- The crew's stages as (agent role, task description) pairs. -/
def stageList (description : String) : List (String × String) :=
  crewRoles.zip (taskDescs description)

/-- One per-stage result entry appended by _execute_crew_with_vscode_llm. -/
structure StageResult where
  agent : String
  task : String
  result : String
deriving DecidableEq

/-- The for-loop of _execute_crew_with_vscode_llm (crewai_engine.py lines
283-312) over the remaining stages, with i the enumeration index and n
the total stage count: each iteration first emits a task_progress whose
taskId slot receives task.agent.role (not the task's id) and whose
fraction is (i+1)/n, then performs the LLM round trip (modelled by the
llm function; VSCodeLLMWrapper.call returns an error STRING on failure
and never raises, so the loop always continues). -/
def execLoop (llm : Nat → String) (stages : List (String × String))
    (i n : Nat) : List Event × List StageResult :=
  match stages with
  | [] => ([], [])
  | (role, d) :: rest =>
    let ev := Event.progress role ((i + 1 : ℚ) / (n : ℚ)) "running"
      ("Executing task: " ++ d.take 50 ++ "...")
    let res : StageResult := ⟨role, d, llm i⟩
    let (evs, rs) := execLoop llm rest (i + 1) n
    (ev :: evs, res :: rs)

/-- CrewAIEngine._execute_crew_task (crewai_engine.py lines 239-275)
composed with _execute_crew_with_vscode_llm (lines 277-325): set the
task running, emit the initial task_progress at fraction 0.1, run the
four-stage loop, emit task_completed, and set the task completed with
progress 1.0.  The body never reads the registry's status field, so a
concurrently set "stopped" is ignored and overwritten. -/
def execCrewTask (s : RegState) (task_id description : String)
    (llm : Nat → String) (now : ℚ) : RegState × List Event :=
  let s1 := rUpdate s task_id (fun tp =>
    { tp with status := "running", message := some "Executing crew task",
              updated_at := now })
  let e0 := Event.progress task_id (1 / 10) "starting" "Task execution started"
  let (evs, _results) := execLoop llm (stageList description) 0 4
  let ec := Event.completed task_id
  let s2 := rUpdate s1 task_id (fun tp =>
    { tp with status := "completed", progress := 1,
              message := some "Task completed successfully", updated_at := now })
  (s2, e0 :: evs ++ [ec])

/-- The executor linearized into its atomic actions, for interleaving a
concurrent stop_task at a stage boundary: init is the running-update plus
the 0.1 notification, stage i is one loop iteration (its notification and
the in-flight LLM round trip, which runs to completion atomically), and
finish is the completion notification plus the completed-update. -/
inductive ExecStep where
  | init
  | stage (i : Nat)
  | finish
deriving DecidableEq

/-- The registry effect and emissions of one executor action, translated
from the same source lines as execCrewTask. -/
def execStepRun (task_id description : String) (llm : Nat → String) (now : ℚ) :
    ExecStep → RegState → RegState × List Event
  | .init, s =>
    (rUpdate s task_id (fun tp =>
       { tp with status := "running", message := some "Executing crew task",
                 updated_at := now }),
     [Event.progress task_id (1 / 10) "starting" "Task execution started"])
  | .stage i, s =>
    match (stageList description).get? i with
    | some (role, d) =>
      let _ := llm i
      (s, [Event.progress role ((i + 1 : ℚ) / 4) "running"
             ("Executing task: " ++ d.take 50 ++ "...")])
    | Option.none => (s, [])
  | .finish, s =>
    (rUpdate s task_id (fun tp =>
       { tp with status := "completed", progress := 1,
                 message := some "Task completed successfully",
                 updated_at := now }),
     [Event.completed task_id])

/-- A scheduler step: one executor action, or the registry effect of the
shadowed first stop_task definition (crewai_engine.py lines 379-382) —
status "stopped", message "Task stopped by user" — which emits nothing. -/
inductive SchedStep where
  | exec (a : ExecStep)
  | stop
deriving DecidableEq

/-- Run an interleaving of executor actions and stop effects, collecting
the emitted notifications in order. -/
def runSched (task_id description : String) (llm : Nat → String) (now : ℚ) :
    List SchedStep → RegState → RegState × List Event
  | [], s => (s, [])
  | step :: rest, s =>
    let (s', evs) :=
      match step with
      | .exec a => execStepRun task_id description llm now a s
      | .stop =>
        (rUpdate s task_id (fun tp =>
           { tp with status := "stopped", message := some "Task stopped by user",
                     updated_at := now }),
         [])
    let (s'', evs2) := runSched task_id description llm now rest s'
    (s'', evs ++ evs2)

/-- The executor's own action sequence, with no concurrent stop. -/
def execSched : List SchedStep :=
  [.exec .init, .exec (.stage 0), .exec (.stage 1),
   .exec (.stage 2), .exec (.stage 3), .exec .finish]

/-- The fractions carried by the task_progress events of a trace. -/
def progressFractions (evs : List Event) : List ℚ :=
  evs.filterMap (fun e =>
    match e with
    | .progress _ f _ _ => some f
    | _ => Option.none)

/-- The taskId slots carried by the task_progress events of a trace. -/
def progressIds (evs : List Event) : List String :=
  evs.filterMap (fun e =>
    match e with
    | .progress tid _ _ _ => some tid
    | _ => Option.none)

/-- How many task_completed events a trace holds. -/
def completedCount (evs : List Event) : Nat :=
  evs.countP (fun e =>
    match e with
    | .completed _ => true
    | _ => false)

/-- How many task_failed events a trace holds. -/
def failedCount (evs : List Event) : Nat :=
  evs.countP (fun e =>
    match e with
    | .failed _ _ => true
    | _ => false)

/-- A TaskProgress as the shadowed first start_task creates it. -/
def sampleProg : TaskProgress :=
  ⟨"t", 0, "starting", Option.none, Option.none, some "Initializing task", 0, 0⟩

/-- The C2 interleaving: a stop effect lands at the stage boundary after
stage 2 (index 1) completes its in-flight call and before stage 3
(index 2) starts. -/
def stopDuringStage2 : List SchedStep :=
  [.exec .init, .exec (.stage 0), .exec (.stage 1), .stop,
   .exec (.stage 2), .exec (.stage 3), .exec .finish]

/-- A start_task request carrying a description but no task_id. -/
def c3Request : Request := ⟨some "r1", some "start_task", [("description", .pstr "x")]⟩

/-- A parseable input line that lacks a method field. -/
def c8Request : Request := ⟨some "1", Option.none, []⟩

/-- Registry after starting task "t": status "running", non-terminal. -/
def c45Started : EngineState :=
  (start_task [] [("task_id", .pstr "t"), ("description", .pstr "old")] 0).1

/-- Registry after then stopping task "t": status "stopped", terminal. -/
def c4Stopped : EngineState :=
  (stop_task c45Started [("task_id", .pstr "t")]).1

/-- Registry after starting "t" again on top of the terminal entry. -/
def c4Restarted : EngineState :=
  (start_task c4Stopped [("task_id", .pstr "t"), ("description", .pstr "d2")] 1).1

/-- Engine result of re-registering the running, non-terminal task "t". -/
def c5Reregister : EngineState × PyDict × List Event :=
  start_task c45Started [("task_id", .pstr "t"), ("description", .pstr "new")] 1

lemma eLookup_eInsert (s : EngineState) (k : Option String) (v : TaskVal) :
    eLookup (eInsert s k v) k = some v := by
  induction s with
  | nil => simp [eInsert, eLookup]
  | cons hd tl ih =>
      obtain ⟨k', v'⟩ := hd
      by_cases h : k' = k <;> simp [eInsert, eLookup, h, ih]

lemma dictGet_setKey (d : PyDict) (k : String) (v : PyVal) :
    dictGet (setKey d k v) k = v := by
  induction d with
  | nil => simp [setKey, dictGet]
  | cons hd tl ih =>
      obtain ⟨k', v'⟩ := hd
      by_cases h : k' = k <;> simp [setKey, dictGet, h, ih]

/-- C1 counterexample: for a task whose four stages all succeed, neither
implementation emits the fraction sequence [0.0, 0.25, 0.50, 0.75, 1.00]:
the pipeline executor emits [0.1, 0.25, 0.50, 0.75, 1.00] and the
SimpleIPCHandler stand-in emits [0, 10, 30, 50, 70, 90]. -/
theorem c1_spec_sequence_counterexample :
    progressFractions (execCrewTask [("t", sampleProg)] "t" "d" (fun _ => "ok") 0).2
        ≠ [0, 1 / 4, 1 / 2, 3 / 4, 1]
      ∧ progressFractions (simpleTaskEvents "t" "d") ≠ [0, 1 / 4, 1 / 2, 3 / 4, 1] := by
  constructor
  · norm_num [execCrewTask, execLoop, stageList, crewRoles, taskDescs,
      progressFractions, List.filterMap_cons]
  · norm_num [simpleTaskEvents, simulateEvents, progressFractions, List.filterMap_cons]

/-- C1 amended: for every task whose four pipeline stages all succeed,
the executor emits task_progress fractions exactly
[0.1, 0.25, 0.50, 0.75, 1.00] — the initial notification uses 0.1, not
0.0 — followed by exactly one task_completed and no task_failed; only the
first notification carries the task's id, the four per-stage
notifications carry the stage agents' roles in the taskId slot. -/
theorem c1_progress_sequence_amended (s : RegState) (tid desc : String)
    (llm : Nat → String) (now : ℚ) :
    progressFractions (execCrewTask s tid desc llm now).2
        = [1 / 10, 1 / 4, 1 / 2, 3 / 4, 1]
      ∧ progressIds (execCrewTask s tid desc llm now).2 = tid :: crewRoles
      ∧ completedCount (execCrewTask s tid desc llm now).2 = 1
      ∧ failedCount (execCrewTask s tid desc llm now).2 = 0
      ∧ (execCrewTask s tid desc llm now).2.getLast? = some (Event.completed tid) := by
  refine ⟨?_, ?_, ?_, ?_, ?_⟩ <;>
    norm_num [execCrewTask, execLoop, stageList, crewRoles, taskDescs,
      progressFractions, progressIds, completedCount, failedCount, List.filterMap_cons]

/-- C2: with a stop landing at the boundary after stage 2 of an
all-success pipeline, the executor still emits the stage-3 and stage-4
progress notifications (fractions 0.75 and 1.0), still emits one
task_completed and no task_failed, and the final registry status is
"completed" — not "stopped" as the claim requires: the executor never
reads the stopped status and overwrites it. -/
theorem c2_stop_ignored_bug :
    rStatus (runSched "t" "d" (fun _ => "ok") 0 stopDuringStage2 [("t", sampleProg)]).1 "t"
        = some "completed"
      ∧ progressFractions
          (runSched "t" "d" (fun _ => "ok") 0 stopDuringStage2 [("t", sampleProg)]).2
        = [1 / 10, 1 / 4, 1 / 2, 3 / 4, 1]
      ∧ completedCount
          (runSched "t" "d" (fun _ => "ok") 0 stopDuringStage2 [("t", sampleProg)]).2 = 1
      ∧ failedCount
          (runSched "t" "d" (fun _ => "ok") 0 stopDuringStage2 [("t", sampleProg)]).2 = 0 := by
  refine ⟨?_, ?_, ?_, ?_⟩
  · decide
  all_goals
    norm_num [runSched, stopDuringStage2, execStepRun, stageList, crewRoles, taskDescs,
      progressFractions, completedCount, failedCount, rUpdate, sampleProg,
      List.filterMap_cons]

/-- C3: a start_task request with a description and no task_id goes
through the effective start_task, which generates no id: the task is
registered under the Python None key with status "running", the Response
carries a null result (so no assigned id is returned — the engine result
has no data field), and no notification is emitted for the task. -/
theorem c3_no_generated_id_bug :
    eStatus (mainHandleRequest ⟨true, []⟩ c3Request 0).1.engine Option.none = some "running"
      ∧ dictGet (mainHandleRequest ⟨true, []⟩ c3Request 0).2.1 "result" = PyVal.pnone
      ∧ dictGet (mainDispatch ⟨true, []⟩ c3Request 0).2.1 "task_id" = PyVal.pnone
      ∧ dictGet (mainHandleRequest ⟨true, []⟩ c3Request 0).2.1 "id" = PyVal.pstr "r1"
      ∧ (mainHandleRequest ⟨true, []⟩ c3Request 0).2.2 = ([] : List Event) :=
  ⟨rfl, rfl, rfl, rfl, rfl⟩

/-- C4 counterexample: task "t" reaches the terminal status "stopped",
and a further start_task with the same id changes its status again, to
"running" — a terminal status is not final. -/
theorem c4_terminal_status_changes_counterexample :
    eStatus c4Stopped (some "t") = some "stopped"
      ∧ eStatus c4Restarted (some "t") = some "running" :=
  ⟨rfl, rfl⟩

/-- C4 amended: no operation guards terminal statuses: stop_task marks
any present dict task stopped regardless of its current status (so stop
after stop is idempotent, but completed or stopped tasks are also
re-marked), and start_task with the same id always resets the entry to
status running, terminal or not. -/
theorem c4_terminal_not_sticky_amended :
    (∀ (s : EngineState) (params : PyDict) (d : PyDict),
        eLookup s (pGetStr params "task_id") = some (.tdict d) →
        eStatus (stop_task s params).1 (pGetStr params "task_id") = some "stopped")
      ∧ (∀ (s : EngineState) (params : PyDict) (now : ℚ),
        eStatus (start_task s params now).1 (pGetStr params "task_id") = some "running") := by
  constructor
  · intro s params d h
    simp [stop_task, h, eStatus, eLookup_eInsert, dictGet_setKey]
  · intro s params now
    simp [start_task, eStatus, eLookup_eInsert, dictGet]

/-- Witness for the C4 amended theorem at a concrete registry: stopping
the running task "t" of c45Started yields status "stopped". -/
theorem c4_terminal_not_sticky_witness :
    eStatus (stop_task c45Started [("task_id", PyVal.pstr "t")]).1
        (pGetStr [("task_id", PyVal.pstr "t")] "task_id") = some "stopped" :=
  c4_terminal_not_sticky_amended.1 c45Started [("task_id", PyVal.pstr "t")]
    [("id", .pstr "t"), ("description", .pstr "old"),
     ("status", .pstr "running"), ("created_at", .pnum 0)] rfl

/-- C5 counterexample: with task "t" present and non-terminal (status
"running"), start_task with the same id returns success and replaces the
entry (the stored description becomes "new") — it does not fail and does
not preserve the existing task. -/
theorem c5_overwrite_counterexample :
    eStatus c45Started (some "t") = some "running"
      ∧ pyTruthy (dictGet c5Reregister.2.1 "success") = true
      ∧ eDescription c5Reregister.1 (some "t") = some "new" :=
  ⟨rfl, rfl, rfl⟩

/-- C5 amended: start_task never checks for an existing id: for every
registry state it returns success and unconditionally creates or
overwrites the entry under params.get("task_id") with the new description
and status "running" (not "pending"), echoing that id in its result. -/
theorem c5_register_overwrites_amended (s : EngineState) (params : PyDict) (now : ℚ) :
    pyTruthy (dictGet (start_task s params now).2.1 "success") = true
      ∧ eStatus (start_task s params now).1 (pGetStr params "task_id") = some "running"
      ∧ eDescription (start_task s params now).1 (pGetStr params "task_id")
          = some (pGetStrD params "description" "")
      ∧ dictGet (start_task s params now).2.1 "task_id"
          = pyOptStr (pGetStr params "task_id") := by
  refine ⟨rfl, ?_, ?_, rfl⟩ <;>
    simp [start_task, eStatus, eDescription, eLookup_eInsert, dictGet]

/-- A health_check request, whose handler result has no data field. -/
def healthRequest : Request := ⟨some "h1", some "health_check", []⟩

/-- C6 counterexample: the Response that CrewAIConnectMain.handle_request
writes for a successful health_check carries BOTH the result and the
error key — and both values are null (the handler result has no "data"
entry), so neither reading of "exactly one present" holds. -/
theorem c6_both_fields_counterexample :
    hasKey (mainHandleRequest ⟨true, []⟩ healthRequest 0).2.1 "result" = true
      ∧ hasKey (mainHandleRequest ⟨true, []⟩ healthRequest 0).2.1 "error" = true
      ∧ dictGet (mainHandleRequest ⟨true, []⟩ healthRequest 0).2.1 "result" = PyVal.pnone
      ∧ dictGet (mainHandleRequest ⟨true, []⟩ healthRequest 0).2.1 "error" = PyVal.pnone :=
  ⟨rfl, rfl, rfl, rfl⟩

/-- C6 amended: only SimpleIPCHandler.send_response writes exactly one of
the result/error fields; every Response built by
CrewAIConnectMain.handle_request contains both keys, with the unused one
(or both, when a success result carries no data field) null. -/
theorem c6_response_fields_amended :
    (∀ (ms : MainState) (req : Request) (now : ℚ),
        hasKey (mainHandleRequest ms req now).2.1 "result" = true
          ∧ hasKey (mainHandleRequest ms req now).2.1 "error" = true)
      ∧ (∀ (request_id result : PyVal) (error : Option String) (now : ℚ),
        Bool.xor (hasKey (send_response request_id result error now) "result")
            (hasKey (send_response request_id result error now) "error") = true) := by
  constructor
  · intro ms req now
    exact ⟨rfl, rfl⟩
  · intro request_id result error now
    cases h : pyTruthyStr error <;> simp [send_response, h, hasKey]

/-- C7: stop_task on an id absent from the registry produces an error
Response whose message is "Task ... not found" with a null result, leaves
the whole main state (registry included) unchanged, and emits no
notification. -/
theorem c7_stop_unknown_confirmed (s : EngineState) (run : Bool)
    (rid : Option String) (params : PyDict) (now : ℚ)
    (h : eLookup s (pGetStr params "task_id") = Option.none) :
    (mainHandleRequest ⟨run, s⟩ ⟨rid, some "stop_task", params⟩ now).1
        = (⟨run, s⟩ : MainState)
      ∧ dictGet (mainHandleRequest ⟨run, s⟩ ⟨rid, some "stop_task", params⟩ now).2.1 "error"
          = PyVal.pstr ("Task " ++ pyStr (pGetStr params "task_id") ++ " not found")
      ∧ dictGet (mainHandleRequest ⟨run, s⟩ ⟨rid, some "stop_task", params⟩ now).2.1 "result"
          = PyVal.pnone
      ∧ (mainHandleRequest ⟨run, s⟩ ⟨rid, some "stop_task", params⟩ now).2.2
          = ([] : List Event) := by
  refine ⟨?_, ?_, ?_, ?_⟩ <;>
    simp [mainHandleRequest, mainDispatch, stop_task, h, pyTruthy, dictGet]

/-- Witness for C7 at a concrete input: stopping the unknown id "x" on an
empty registry. -/
theorem c7_stop_unknown_witness :
    (mainHandleRequest ⟨true, []⟩ ⟨some "9", some "stop_task", [("task_id", PyVal.pstr "x")]⟩ 0).1
        = (⟨true, []⟩ : MainState)
      ∧ dictGet (mainHandleRequest ⟨true, []⟩
            ⟨some "9", some "stop_task", [("task_id", PyVal.pstr "x")]⟩ 0).2.1 "error"
          = PyVal.pstr ("Task " ++ pyStr (pGetStr [("task_id", PyVal.pstr "x")] "task_id")
              ++ " not found")
      ∧ dictGet (mainHandleRequest ⟨true, []⟩
            ⟨some "9", some "stop_task", [("task_id", PyVal.pstr "x")]⟩ 0).2.1 "result"
          = PyVal.pnone
      ∧ (mainHandleRequest ⟨true, []⟩
            ⟨some "9", some "stop_task", [("task_id", PyVal.pstr "x")]⟩ 0).2.2
          = ([] : List Event) :=
  c7_stop_unknown_confirmed [] true (some "9") [("task_id", PyVal.pstr "x")] 0 rfl

/-- C8 counterexample: a parseable input line that lacks a method field
does get a Response from CrewAIConnectMain's loop — the error Response
"Unknown method: None" — contradicting the claim that no Response is
written for such a line. -/
theorem c8_missing_method_response_counterexample :
    (asyncRun 2 [Line.valid c8Request] ⟨true, []⟩).1
      = [Out.resp
          [("id", PyVal.pstr "1"), ("result", PyVal.pnone),
           ("error", PyVal.pstr "Unknown method: None"), ("timestamp", PyVal.pnum 0)]] :=
  rfl

/-- C8 amended: a line that is not valid JSON produces no Response in
either main loop and the loop goes on to process the remaining input
unchanged; a parseable line lacking a method gets no Response from
SimpleIPCHandler.handle_request, but CrewAIConnectMain answers it with an
error Response "Unknown method: None"; neither loop crashes or stops on
such lines. -/
theorem c8_decode_policy_amended :
    (∀ (fuel : Nat) (rest : List Line) (s : EngineState),
        asyncRun (fuel + 1) (Line.invalid :: rest) ⟨true, s⟩ = asyncRun fuel rest ⟨true, s⟩)
      ∧ (∀ (rest : List Line) (st : SimpleState),
        simpleRun (Line.invalid :: rest) st = simpleRun rest st)
      ∧ simpleHandle ⟨[], true⟩ c8Request 0 = ([], ⟨[], true⟩)
      ∧ (∀ (ms : MainState) (now : ℚ),
        dictGet (mainHandleRequest ms c8Request now).2.1 "error"
          = PyVal.pstr "Unknown method: None") := by
  refine ⟨fun fuel rest s => rfl, ?_, rfl, fun ms now => rfl⟩
  intro rest st
  cases h : st.is_running
  · cases rest <;> simp [simpleRun, h]
  · cases rest <;> simp [simpleRun, h]

/-- C9: at end-of-input, CrewAIConnectMain.run never exits:
receive_request maps the EOF read to None exactly like a blank line, so
the loop sleeps and retries forever (no iteration bound makes it finish),
and the process never reaches its exit path.  SimpleIPCHandler.run, by
contrast, does break out of its loop at end-of-input. -/
theorem c9_eof_never_exits_bug :
    (∀ (fuel : Nat) (s : EngineState), asyncRun fuel [] ⟨true, s⟩ = ([], false))
      ∧ (∀ st : SimpleState, simpleRun [] st = ([], st)) := by
  constructor
  · intro fuel
    induction fuel with
    | zero => intro s; rfl
    | succ n ih => intro s; exact ih s
  · intro st
    rfl

/-- C10: get_task_status and list_tasks are read-only: for every registry
and every params dict they return the registry exactly as given (every
task and every field unchanged, no entry added or removed) and emit no
notification. -/
theorem c10_status_list_readonly_confirmed (s : EngineState) (params : PyDict) :
    (get_task_status s params).1 = s
      ∧ (get_task_status s params).2.2 = ([] : List Event)
      ∧ (list_tasks s params).1 = s
      ∧ (list_tasks s params).2.2 = ([] : List Event) := by
  refine ⟨?_, ?_, ?_, ?_⟩
  · cases h : eLookup s (pGetStr params "task_id") with
    | none => simp [get_task_status, h]
    | some tv => cases tv <;> simp [get_task_status, h]
  · cases h : eLookup s (pGetStr params "task_id") with
    | none => simp [get_task_status, h]
    | some tv => cases tv <;> simp [get_task_status, h]
  · cases h : allProg s <;> simp [list_tasks, h]
  · cases h : allProg s <;> simp [list_tasks, h]

end MultiAgent
